import Mathlib

/-!
Verification of the obsidian-readlater orchestration pipeline.

This file gives a shallow embedding of the core of the repository:
the template renderer (`formatArticle` in `src/cli.ts` and `main.ts`),
the credential-reference subsystem (`CredentialManager` in
`src/credentials/manager.ts` and its backends), the provider registry
(`src/providers/registry.ts`), the sync orchestrator loops (the headless
CLI `main` in `src/cli.ts` and `ReadLaterPlugin.syncAllProviders` in
`main.ts`), the persistence layer (`ObsidianSyncManager` in
`src/sync/obsidian-sync.ts` and `saveArticles` in `src/cli.ts`), and the
browser-provider lifecycle (`BrowserProvider` in `src/providers/base.ts`).

External effects (environment variables, subprocess lookups, browser
navigation, provider page extraction) are modelled as oracle parameters;
everything else is translated from the TypeScript source.
-/

namespace ReadLater

/-!
## String-scanning primitives

These model the JavaScript `String.prototype.replace` calls used by the
source: global replacement of a literal pattern, global replacement of a
lazily-matched `open ... close` block, and single (first-occurrence)
replacement.  Replacement strings are inserted literally.
-/

/-- Split a character list around the first occurrence of `pat`:
returns `(before, after)` with the occurrence itself removed, or `none`
when `pat` does not occur. -/
def splitAtSub (pat : List Char) : List Char → Option (List Char × List Char)
  | [] => none
  | c :: rest =>
    if pat.isPrefixOf (c :: rest) then some ([], (c :: rest).drop pat.length)
    else
      match splitAtSub pat rest with
      | none => none
      | some (pre, post) => some (c :: pre, post)

/-- Fuel-indexed worker for global literal replacement.  The fuel is the
length of the scanned list, which bounds the number of scanning steps. -/
def replaceAllAux (pat rep : List Char) : Nat → List Char → List Char
  | 0, s => s
  | _ + 1, [] => []
  | fuel + 1, c :: rest =>
    if pat.isPrefixOf (c :: rest) ∧ pat ≠ [] then
      rep ++ replaceAllAux pat rep fuel ((c :: rest).drop pat.length)
    else
      c :: replaceAllAux pat rep fuel rest

/-- JavaScript `s.replace(/pat/g, rep)` for a literal pattern: replace
every non-overlapping occurrence, scanning left to right. -/
def replaceAll (s pat rep : String) : String :=
  ⟨replaceAllAux pat.data rep.data s.data.length s.data⟩

/-- Fuel-indexed worker for global block replacement, mirroring the lazy
regex `open([\s\S]*?)close`: find the first `opn`, then the first `cls`
after it, keep or drop the inner text, and continue past the match. -/
def replaceBlocksAux (opn cls : List Char) (keepInner : Bool) :
    Nat → List Char → List Char
  | 0, s => s
  | fuel + 1, s =>
    match splitAtSub opn s with
    | none => s
    | some (pre, afterOpen) =>
      match splitAtSub cls afterOpen with
      | none => s
      | some (inner, rest) =>
        pre ++ (if keepInner then inner else []) ++
          replaceBlocksAux opn cls keepInner fuel rest

/-- JavaScript global replacement of a lazily matched conditional block:
with `keepInner = true` the match is replaced by its capture group (the
delimiters are stripped), with `keepInner = false` the whole match is
removed. -/
def replaceBlocks (s opn cls : String) (keepInner : Bool) : String :=
  ⟨replaceBlocksAux opn.data cls.data keepInner (s.data.length + 1) s.data⟩

/-- JavaScript `s.replace(pat, rep)` with a plain-string pattern: only the
first occurrence is replaced. -/
def replaceFirst (s pat rep : String) : String :=
  match splitAtSub pat.data s.data with
  | none => s
  | some (pre, post) => ⟨pre ++ rep.data ++ post⟩

/-- Whether `needle` occurs as a substring of `hay`. -/
def containsSub (hay needle : String) : Bool :=
  (splitAtSub needle.data hay.data).isSome

/-!
## JavaScript truthiness helpers

The source uses `x || fallback` and `if (x)` on strings; an absent value
and the empty string are both falsy.
-/

/-- JavaScript `s || d` for a (required) string field: the empty string
falls back to the default. -/
def jsOrS (s d : String) : String := if s = "" then d else s

/-- JavaScript `s || d` for an optional string field. -/
def jsOrOpt (v : Option String) (d : String) : String :=
  match v with
  | none => d
  | some s => if s = "" then d else s

/-- JavaScript truthiness of an optional string. -/
def jsTruthy (v : Option String) : Bool :=
  match v with
  | none => false
  | some s => if s = "" then false else true

/-- JavaScript `article.tags && article.tags.length > 0`. -/
def tagsTruthy (t : Option (List String)) : Bool :=
  match t with
  | none => false
  | some l => if l.length > 0 then true else false

/-!
## Data model (`src/types.ts`)
-/

/-- `ReadLaterArticle` from `src/types.ts`.  The `addedDate` timestamp is
modelled as a natural number. -/
structure ReadLaterArticle where
  title : String
  url : String
  author : Option String := none
  publicationDate : Option String := none
  excerpt : Option String := none
  source : String
  addedDate : Nat := 0
  tags : Option (List String) := none
deriving DecidableEq

/-- `SyncResult` from `src/types.ts`. -/
structure SyncResult where
  provider : String
  success : Bool
  articlesAdded : Nat
  error : Option String := none
deriving DecidableEq

/-- `ProviderConfig` from `src/types.ts`: credentials are a record of
logical field name to raw string value; `lastSync` is a timestamp
(modelled as a natural number), set only by the plugin orchestrator. -/
structure ProviderConfig where
  enabled : Bool
  credentials : List (String × String)
  lastSync : Option Nat := none
deriving DecidableEq

/-!
## Template renderer (`formatArticle`, identical in `src/cli.ts` lines
187-212 and `main.ts`)

The five simple substitutions run first, then the `excerpt` conditional
block, then the `tags` conditional block, exactly in source order.
-/

/-- The five unconditional substitutions of `formatArticle`. -/
def substituteSimpleFields (article : ReadLaterArticle) (t : String) : String :=
  replaceAll
    (replaceAll
      (replaceAll
        (replaceAll
          (replaceAll t "\x7b\x7btitle\x7d\x7d" (jsOrS article.title "Untitled"))
          "\x7b\x7burl\x7d\x7d" article.url)
        "\x7b\x7bsource\x7d\x7d" article.source)
      "\x7b\x7bauthor\x7d\x7d" (jsOrOpt article.author "Unknown"))
    "\x7b\x7bdate\x7d\x7d" (jsOrOpt article.publicationDate "")

/-- The `if (article.excerpt)` conditional-block handling of
`formatArticle`. -/
def substituteExcerpt (article : ReadLaterArticle) (t : String) : String :=
  if jsTruthy article.excerpt then
    replaceAll (replaceBlocks t "\x7b\x7b#if excerpt\x7d\x7d" "\x7b\x7b/if\x7d\x7d" true)
      "\x7b\x7bexcerpt\x7d\x7d" (article.excerpt.getD "")
  else
    replaceBlocks t "\x7b\x7b#if excerpt\x7d\x7d" "\x7b\x7b/if\x7d\x7d" false

/-- The `if (article.tags && article.tags.length > 0)` conditional-block
handling of `formatArticle`. -/
def substituteTags (article : ReadLaterArticle) (t : String) : String :=
  if tagsTruthy article.tags then
    replaceAll (replaceBlocks t "\x7b\x7b#if tags\x7d\x7d" "\x7b\x7b/if\x7d\x7d" true)
      "\x7b\x7btags\x7d\x7d" (String.intercalate ", " (article.tags.getD []))
  else
    replaceBlocks t "\x7b\x7b#if tags\x7d\x7d" "\x7b\x7b/if\x7d\x7d" false

/-- `formatArticle(article, template)` from `src/cli.ts` (the plugin
version in `main.ts` is byte-for-byte the same logic). -/
def formatArticle (article : ReadLaterArticle) (template : String) : String :=
  substituteTags article (substituteExcerpt article (substituteSimpleFields article template))

/-- `articles.map(a => formatArticle(a, template)).join('\n')`, the batch
rendering used by both orchestrators. -/
def renderBatch (articles : List ReadLaterArticle) (template : String) : String :=
  String.intercalate "\n" (articles.map (fun a => formatArticle a template))

/-!
## Credential subsystem (`src/credentials/manager.ts`,
`src/credentials/providers/{env,onepassword,bitwarden}.ts`)
-/

/-- The three registered secret backends of `CredentialManager`; the
source keys them by the strings `'1password'`, `'bitwarden'`, `'env'`. -/
inductive CredBackend where
  | onepassword
  | bitwarden
  | env
deriving DecidableEq

/-- The registry key string of a backend, as used in error messages. -/
def credBackendName : CredBackend → String
  | .onepassword => "1password"
  | .bitwarden => "bitwarden"
  | .env => "env"

/-- `CredentialReference` from `src/credentials/types.ts`. -/
structure CredentialReference where
  provider : CredBackend
  reference : String
deriving DecidableEq

/-- A credential value as passed to `resolveCredential`: either a plain
string or a parsed reference (`string | CredentialReference`). -/
inductive CredValue where
  | plain (s : String)
  | ref (r : CredentialReference)
deriving DecidableEq

/-- `CredentialManager.parseReference`: exact, case-sensitive prefix
dispatch; the `env://` prefix is stripped via a first-occurrence
`String.replace`, the other two keep the full string as the pointer. -/
def parseReference (ref : String) : CredValue :=
  if "op://".data.isPrefixOf ref.data then .ref ⟨.onepassword, ref⟩
  else if "bw://".data.isPrefixOf ref.data then .ref ⟨.bitwarden, ref⟩
  else if "env://".data.isPrefixOf ref.data then
    .ref ⟨.env, replaceFirst ref "env://" ""⟩
  else .plain ref

/-- The external world a resolution runs against: availability of the two
subprocess-backed tools, their (post-subprocess, post-trim) lookup
results, and the process environment. -/
structure CredWorld where
  onepasswordAvailable : Bool
  bitwardenAvailable : Bool
  onepasswordRead : String → Option String
  bitwardenRead : String → Option String
  envVar : String → Option String

/-- `isAvailable()` per backend: the environment backend is always
available, the subprocess backends only when their tool works. -/
def backendAvailable (w : CredWorld) : CredBackend → Bool
  | .onepassword => w.onepasswordAvailable
  | .bitwarden => w.bitwardenAvailable
  | .env => true

/-- `getCredential(pointer)` per backend.  The environment backend's
`value || null` maps an empty environment variable to not-found. -/
def backendGetCredential (w : CredWorld) : CredBackend → String → Option String
  | .onepassword, r => w.onepasswordRead r
  | .bitwarden, r => w.bitwardenRead r
  | .env, r =>
    match w.envVar r with
    | none => none
    | some v => if v = "" then none else some v

/-- `CredentialManager.resolveCredential`: a plain string is returned
unchanged; a reference is dispatched to its backend, failing with a
backend-unavailable error or (for a missing or falsy credential) a
pointer-not-found error.  A thrown `Error` is modelled as `Except.error`
carrying the message. -/
def resolveCredential (w : CredWorld) : CredValue → Except String String
  | .plain s => .ok s
  | .ref r =>
    if backendAvailable w r.provider then
      match backendGetCredential w r.provider r.reference with
      | some c =>
        if c = "" then .error ("Failed to resolve credential: " ++ r.reference)
        else .ok c
      | none => .error ("Failed to resolve credential: " ++ r.reference)
    else
      .error ("Credential provider \x27" ++ credBackendName r.provider ++ "\x27 not available")

/-- JavaScript truthiness of a credential entry value (`if (value)` in
`resolveCredentials`): an empty plain string is falsy, a reference object
is always truthy. -/
def credValueTruthy : CredValue → Bool
  | .plain s => if s = "" then false else true
  | .ref _ => true

/-- `CredentialManager.resolveCredentials`: resolve the entries in order,
skipping falsy values; the first thrown resolution error propagates and
aborts the call. -/
def resolveCredentials (w : CredWorld) :
    List (String × CredValue) → Except String (List (String × String))
  | [] => .ok []
  | (k, v) :: rest =>
    if credValueTruthy v then
      match resolveCredential w v with
      | .error e => .error e
      | .ok s =>
        match resolveCredentials w rest with
        | .error e => .error e
        | .ok m => .ok ((k, s) :: m)
    else resolveCredentials w rest

/-!
## Headless CLI credential-resolution phase (`src/cli.ts` lines 316-333)

The CLI resolves all enabled providers' credentials in a loop that runs
before the provider sync loop and has no try/catch: a thrown resolution
error escapes `main` entirely.
-/

/-- The inner loop of the CLI resolution phase: parse and resolve each
credential entry of one provider (every value is a string there, so the
`typeof value === 'string'` guard always passes). -/
def resolveProviderCreds (w : CredWorld) :
    List (String × String) → Except String (List (String × String))
  | [] => .ok []
  | (k, v) :: rest =>
    match resolveCredential w (parseReference v) with
    | .error e => .error e
    | .ok s =>
      match resolveProviderCreds w rest with
      | .error e => .error e
      | .ok m => .ok ((k, s) :: m)

/-- The CLI resolution phase over `settings.providers`: disabled
providers are skipped (`continue`), enabled ones get their credentials
replaced by the resolved values; a thrown error propagates. -/
def resolvePhase (w : CredWorld) :
    List (String × ProviderConfig) → Except String (List (String × ProviderConfig))
  | [] => .ok []
  | (n, c) :: rest =>
    if c.enabled then
      match resolveProviderCreds w c.credentials with
      | .error e => .error e
      | .ok creds2 =>
        match resolvePhase w rest with
        | .error e => .error e
        | .ok rest2 => .ok ((n, { c with credentials := creds2 }) :: rest2)
    else
      match resolvePhase w rest with
      | .error e => .error e
      | .ok rest2 => .ok ((n, c) :: rest2)

/-!
## Provider catalog (`src/providers/registry.ts`)
-/

/-- The registration order of `ProviderRegistry.registerProviders`. -/
def registryNames : List String := ["wired", "guardian", "hbr", "medium", "irishtimes"]

/-- Lookup in the settings' provider map (`settings.providers[name]`). -/
def lookupConfig : List (String × ProviderConfig) → String → Option ProviderConfig
  | [], _ => none
  | (n, c) :: rest, name => if n = name then some c else lookupConfig rest name

/-- `ProviderRegistry.getEnabledProviders`: one provider per registered
identifier whose config is present and enabled, in registration order.
The result is the list of provider identifiers; their runtime behavior
is supplied by an oracle. -/
def getEnabledProviders (cfg : List (String × ProviderConfig)) : List String :=
  registryNames.filter (fun n =>
    match lookupConfig cfg n with
    | some c => c.enabled
    | none => false)

/-!
## Provider runtime behavior (oracle)

A provider's `authenticate()` either returns a boolean or throws; its
`fetchArticles()` either returns records or throws.
-/

/-- Outcome of `provider.authenticate()`. -/
inductive AuthOutcome where
  | ok (authenticated : Bool)
  | thrown (msg : String)
deriving DecidableEq

/-- Outcome of `provider.fetchArticles()`. -/
inductive FetchOutcome where
  | ok (articles : List ReadLaterArticle)
  | thrown (msg : String)
deriving DecidableEq

/-- The observable behavior of one instantiated provider during a run. -/
structure ProviderBehavior where
  displayName : String
  auth : AuthOutcome
  fetch : FetchOutcome

/-!
## Headless CLI sync loop (`src/cli.ts` lines 384-429) and outcome
-/

/-- One iteration of the CLI per-provider loop: the try/catch boundary
converts a thrown error into a failed `SyncResult` with the exception's
message; a `false` from `authenticate()` yields the fixed
`"Authentication failed"` error; on success the fetched articles are
accumulated. -/
def cliRunProvider (b : ProviderBehavior) : SyncResult × List ReadLaterArticle :=
  match b.auth with
  | .thrown m => (⟨b.displayName, false, 0, some m⟩, [])
  | .ok false => (⟨b.displayName, false, 0, some "Authentication failed"⟩, [])
  | .ok true =>
    match b.fetch with
    | .thrown m => (⟨b.displayName, false, 0, some m⟩, [])
    | .ok articles => (⟨b.displayName, true, articles.length, none⟩, articles)

/-- The CLI provider loop: push one result per provider and concatenate
the fetched articles. -/
def cliLoop (bs : String → ProviderBehavior) :
    List String → List SyncResult × List ReadLaterArticle
  | [] => ([], [])
  | n :: rest =>
    let step := cliRunProvider (bs n)
    let restRun := cliLoop bs rest
    (step.1 :: restRun.1, step.2 ++ restRun.2)

/-- Outcome of the CLI `main`: either a fatal abort (any uncaught throw
or explicit `process.exit(1)` before the summary — the process exits with
code 1 and no results are reported) or a completed run with its results,
the post-resolution settings, and the final exit code. -/
inductive CliOutcome where
  | fatal (msg : String)
  | done (results : List SyncResult) (providersAfter : List (String × ProviderConfig))
      (exitCode : Nat)
deriving DecidableEq

/-- The control skeleton of the CLI `main` (`src/cli.ts` lines 316-494):
resolution phase (uncaught on failure), empty-provider check
(`process.exit(1)`), provider loop, and the final exit code, which is 1
exactly when some result is unsuccessful. -/
def cliMain (w : CredWorld) (providers : List (String × ProviderConfig))
    (bs : String → ProviderBehavior) : CliOutcome :=
  match resolvePhase w providers with
  | .error m => .fatal m
  | .ok providers2 =>
    if (getEnabledProviders providers2).isEmpty then .fatal "No providers enabled"
    else
      .done (cliLoop bs (getEnabledProviders providers2)).1 providers2
        (if ((cliLoop bs (getEnabledProviders providers2)).1.filter
              (fun r => !r.success)).length > 0
         then 1 else 0)

/-- The process exit code of a CLI outcome (`process.exit`). -/
def cliExitCode : CliOutcome → Nat
  | .fatal _ => 1
  | .done _ _ code => code

/-- The `SyncResult`s reported by a CLI outcome (a fatal abort reports
none). -/
def cliResults : CliOutcome → List SyncResult
  | .fatal _ => []
  | .done rs _ _ => rs

/-!
## Persistence layer (`src/sync/obsidian-sync.ts` and
`saveArticles` in `src/cli.ts` lines 214-239)

The file system is modelled per target path as `Option String` (the
file's content, or `none` when absent); each operation returns the new
content of the target.
-/

/-- `ObsidianSyncManager.writeFile`: replace semantics, prior content is
discarded. -/
def writeFile (_prior : Option String) (content : String) : String := content

/-- `ObsidianSyncManager.appendFile`: read the existing content (empty
when the file is absent) and join with a blank-line separator unless the
existing content is empty. -/
def appendFile (prior : Option String) (content : String) : String :=
  let existing := match prior with | some e => e | none => ""
  if existing = "" then content else existing ++ "\n\n" ++ content

/-- The file write of the CLI `saveArticles` (direct file mode):
`if (append && existsSync(outputPath))` join with a blank-line
separator, otherwise write the new content alone. -/
def saveArticlesWrite (prior : Option String) (append : Bool) (formatted : String) : String :=
  match prior, append with
  | some existing, true => existing ++ "\n\n" ++ formatted
  | _, _ => formatted

/-- A version-control action attempted by the CLI after writing. -/
inductive GitAction where
  | commit (msg : String)
  | push
deriving DecidableEq

/-- The CLI post-loop persistence phase (`src/cli.ts` lines 432-481):
everything — the file write, the sync trigger, and the git commit/push —
is guarded by `allArticles.length > 0`.  `commitOk` is the oracle for
whether `gitCommit` reported staged changes (push is only attempted when
it did). -/
def cliPersistPhase (articles : List ReadLaterArticle) (template : String)
    (appendMode useVault gitSync isGitVault commitOk : Bool)
    (prior : Option String) : Option String × List GitAction :=
  if articles.length > 0 then
    let formatted := renderBatch articles template
    let newContent :=
      if useVault then
        if appendMode then appendFile prior formatted else writeFile prior formatted
      else saveArticlesWrite prior appendMode formatted
    let acts :=
      if useVault && gitSync && isGitVault then
        GitAction.commit
            ("chore: sync read-later articles (" ++ toString articles.length ++ " articles)") ::
          (if commitOk then [GitAction.push] else [])
      else []
    (some newContent, acts)
  else (prior, [])

/-!
## Plugin orchestrator (`ReadLaterPlugin.syncAllProviders` in `main.ts`)
-/

/-- The mutable state the plugin loop touches: the output note's content
and the providers' persisted configuration. -/
structure PluginState where
  note : Option String
  providers : List (String × ProviderConfig)
deriving DecidableEq

/-- `ReadLaterPlugin.saveArticles`: returns immediately on an empty
batch; otherwise the file is created empty if absent, and in append mode
the new content is joined to non-empty existing content with a blank-line
separator. -/
def pluginSaveArticles (appendMode : Bool) (template : String)
    (articles : List ReadLaterArticle) (prior : Option String) : Option String :=
  if articles.length = 0 then prior
  else
    let existing := match prior with | some e => e | none => ""
    let formatted := renderBatch articles template
    if appendMode then
      some (if existing = "" then formatted else existing ++ "\n\n" ++ formatted)
    else some formatted

/-- `providerConfig.lastSync = new Date()` guarded by
`if (providerConfig)`: update the provider's entry when present. -/
def updateLastSync (ps : List (String × ProviderConfig)) (name : String) (now : Nat) :
    List (String × ProviderConfig) :=
  ps.map (fun p => if p.1 = name then (p.1, { p.2 with lastSync := some now }) else p)

/-- One iteration of the plugin per-provider loop (`main.ts` lines
91-129): same try/catch boundary as the CLI, but the fetched articles are
saved immediately and the provider's `lastSync` is updated on success. -/
def pluginRunProvider (appendMode : Bool) (template : String) (now : Nat)
    (bs : String → ProviderBehavior) (name : String) (st : PluginState) :
    SyncResult × PluginState :=
  match (bs name).auth with
  | .thrown m => (⟨(bs name).displayName, false, 0, some m⟩, st)
  | .ok false => (⟨(bs name).displayName, false, 0, some "Authentication failed"⟩, st)
  | .ok true =>
    match (bs name).fetch with
    | .thrown m => (⟨(bs name).displayName, false, 0, some m⟩, st)
    | .ok articles =>
      (⟨(bs name).displayName, true, articles.length, none⟩,
       ⟨pluginSaveArticles appendMode template articles st.note,
        updateLastSync st.providers name now⟩)

/-- The plugin provider loop, threading the note/settings state. -/
def pluginLoop (appendMode : Bool) (template : String) (now : Nat)
    (bs : String → ProviderBehavior) :
    List String → PluginState → List SyncResult × PluginState
  | [], st => ([], st)
  | n :: rest, st =>
    let step := pluginRunProvider appendMode template now bs n st
    let restRun := pluginLoop appendMode template now bs rest step.2
    (step.1 :: restRun.1, restRun.2)

/-- `ReadLaterPlugin.syncAllProviders`: an empty enabled set
short-circuits with a notice and no results; otherwise the loop runs over
the enabled providers in registration order. -/
def pluginSyncAll (appendMode : Bool) (template : String) (now : Nat)
    (bs : String → ProviderBehavior) (st : PluginState) :
    List SyncResult × PluginState :=
  if (getEnabledProviders st.providers).isEmpty then ([], st)
  else pluginLoop appendMode template now bs (getEnabledProviders st.providers) st

/-!
## Browser-provider lifecycle (`BrowserProvider` in
`src/providers/base.ts`)
-/

/-- The browser resources a `BrowserProvider` holds: the `browser` and
`page` fields (handles modelled as numbers, `null` as `none`). -/
structure BrowserState where
  browser : Option Nat
  page : Option Nat
deriving DecidableEq

/-- Outcome of `page.goto(readLaterUrl)`. -/
inductive NavOutcome where
  | ok
  | thrown (msg : String)
deriving DecidableEq

/-- Outcome of the provider-specific `extractArticles()` routine. -/
inductive ExtractOutcome where
  | ok (articles : List ReadLaterArticle)
  | thrown (msg : String)
deriving DecidableEq

/-- `BrowserProvider.cleanup`: close and null both handles. -/
def cleanup (_st : BrowserState) : BrowserState := ⟨none, none⟩

/-- `BrowserProvider.fetchArticles` (`src/providers/base.ts` lines
30-51), translated statement by statement: throw when not authenticated,
navigate, extract, then clean up and return.  There is no try/finally in
the source, so a thrown navigation or extraction error propagates with
the fields left as they were. -/
def fetchArticles (st : BrowserState) (nav : NavOutcome) (extract : ExtractOutcome) :
    Except (String × BrowserState) (List ReadLaterArticle × BrowserState) :=
  match st.page with
  | none => .error ("Not authenticated", st)
  | some _ =>
    match nav with
    | .thrown m => .error (m, st)
    | .ok =>
      match extract with
      | .thrown m => .error (m, st)
      | .ok articles => .ok (articles, cleanup st)

/-!
## Shared lemmas about the string primitives

These let renderer facts be proved by rewriting instead of brute-force
evaluation: a replacement whose pattern does not occur is the identity,
and replacing a whole-template pattern yields the replacement itself.
-/

/-- When `pat` does not occur in `s`, scanning leaves `s` unchanged. -/
theorem replaceAllAux_no_occur (pat rep : List Char) :
    ∀ (fuel : Nat) (s : List Char), splitAtSub pat s = none →
      replaceAllAux pat rep fuel s = s := by
  intro fuel
  induction fuel with
  | zero => intro s _; rfl
  | succ f ih =>
    intro s h
    cases s with
    | nil => rfl
    | cons c rest =>
      have hp : pat.isPrefixOf (c :: rest) = false := by
        cases hp2 : pat.isPrefixOf (c :: rest) with
        | false => rfl
        | true =>
          unfold splitAtSub at h
          rw [if_pos hp2] at h
          cases h
      have hrest : splitAtSub pat rest = none := by
        unfold splitAtSub at h
        rw [if_neg (by rw [hp]; exact Bool.false_ne_true)] at h
        cases hsub : splitAtSub pat rest with
        | none => rfl
        | some pr =>
          rw [hsub] at h
          cases pr with
          | mk pre post => simp at h
      simp only [replaceAllAux]
      rw [if_neg (fun hand => absurd hand.1 (by rw [hp]; exact Bool.false_ne_true))]
      exact congrArg (fun l => c :: l) (ih rest hrest)

/-- `replaceAll` is the identity when the pattern does not occur. -/
theorem replaceAll_no_occur (s pat rep : String)
    (h : splitAtSub pat.data s.data = none) : replaceAll s pat rep = s := by
  unfold replaceAll
  rw [replaceAllAux_no_occur pat.data rep.data s.data.length s.data h]

/-- `replaceBlocks` is the identity when the opening delimiter does not
occur. -/
theorem replaceBlocks_no_open (s opn cls : String) (k : Bool)
    (h : splitAtSub opn.data s.data = none) : replaceBlocks s opn cls k = s := by
  unfold replaceBlocks
  simp only [replaceBlocksAux]
  rw [h]

/-- Replacing the title placeholder inside the template consisting of
exactly that placeholder yields the replacement value. -/
theorem replaceAll_self_title (rep : String) :
    replaceAll "\x7b\x7btitle\x7d\x7d" "\x7b\x7btitle\x7d\x7d" rep = rep := by
  show String.mk (rep.data ++ []) = rep
  rw [List.append_nil]

/-- Replacing the author placeholder inside the template consisting of
exactly that placeholder yields the replacement value. -/
theorem replaceAll_self_author (rep : String) :
    replaceAll "\x7b\x7bauthor\x7d\x7d" "\x7b\x7bauthor\x7d\x7d" rep = rep := by
  show String.mk (rep.data ++ []) = rep
  rw [List.append_nil]

/-- Replacing the date placeholder inside the template consisting of
exactly that placeholder yields the replacement value. -/
theorem replaceAll_self_date (rep : String) :
    replaceAll "\x7b\x7bdate\x7d\x7d" "\x7b\x7bdate\x7d\x7d" rep = rep := by
  show String.mk (rep.data ++ []) = rep
  rw [List.append_nil]

/-!
## Shared lemmas about the renderer stages
-/

/-- The five simple substitutions leave a template without any of the
five placeholders unchanged. -/
theorem substituteSimpleFields_no_placeholders (a : ReadLaterArticle) (t : String)
    (h1 : splitAtSub "\x7b\x7btitle\x7d\x7d".data t.data = none)
    (h2 : splitAtSub "\x7b\x7burl\x7d\x7d".data t.data = none)
    (h3 : splitAtSub "\x7b\x7bsource\x7d\x7d".data t.data = none)
    (h4 : splitAtSub "\x7b\x7bauthor\x7d\x7d".data t.data = none)
    (h5 : splitAtSub "\x7b\x7bdate\x7d\x7d".data t.data = none) :
    substituteSimpleFields a t = t := by
  unfold substituteSimpleFields
  rw [replaceAll_no_occur t "\x7b\x7btitle\x7d\x7d" (jsOrS a.title "Untitled") h1,
      replaceAll_no_occur t "\x7b\x7burl\x7d\x7d" a.url h2,
      replaceAll_no_occur t "\x7b\x7bsource\x7d\x7d" a.source h3,
      replaceAll_no_occur t "\x7b\x7bauthor\x7d\x7d" (jsOrOpt a.author "Unknown") h4,
      replaceAll_no_occur t "\x7b\x7bdate\x7d\x7d" (jsOrOpt a.publicationDate "") h5]

/-- The excerpt stage when the excerpt is falsy: the whole block is
removed. -/
theorem substituteExcerpt_false (a : ReadLaterArticle) (h : jsTruthy a.excerpt = false)
    (t : String) :
    substituteExcerpt a t =
      replaceBlocks t "\x7b\x7b#if excerpt\x7d\x7d" "\x7b\x7b/if\x7d\x7d" false := by
  unfold substituteExcerpt
  rw [h]
  rfl

/-- The excerpt stage when the excerpt is truthy: the delimiters are
stripped and the inner placeholder substituted. -/
theorem substituteExcerpt_true (a : ReadLaterArticle) (h : jsTruthy a.excerpt = true)
    (t : String) :
    substituteExcerpt a t =
      replaceAll (replaceBlocks t "\x7b\x7b#if excerpt\x7d\x7d" "\x7b\x7b/if\x7d\x7d" true)
        "\x7b\x7bexcerpt\x7d\x7d" (a.excerpt.getD "") := by
  unfold substituteExcerpt
  rw [h]
  rfl

/-- The tags stage when the tags are falsy. -/
theorem substituteTags_false (a : ReadLaterArticle) (h : tagsTruthy a.tags = false)
    (t : String) :
    substituteTags a t =
      replaceBlocks t "\x7b\x7b#if tags\x7d\x7d" "\x7b\x7b/if\x7d\x7d" false := by
  unfold substituteTags
  rw [h]
  rfl

/-- The tags stage when the tags are truthy. -/
theorem substituteTags_true (a : ReadLaterArticle) (h : tagsTruthy a.tags = true)
    (t : String) :
    substituteTags a t =
      replaceAll (replaceBlocks t "\x7b\x7b#if tags\x7d\x7d" "\x7b\x7b/if\x7d\x7d" true)
        "\x7b\x7btags\x7d\x7d" (String.intercalate ", " (a.tags.getD [])) := by
  unfold substituteTags
  rw [h]
  rfl

/-- The excerpt and tags stages leave a text without block delimiters or
their placeholders unchanged, whatever the record holds. -/
theorem substituteExcerptTags_no_blocks (a : ReadLaterArticle) (t : String)
    (ho1 : splitAtSub "\x7b\x7b#if excerpt\x7d\x7d".data t.data = none)
    (he : splitAtSub "\x7b\x7bexcerpt\x7d\x7d".data t.data = none)
    (ho2 : splitAtSub "\x7b\x7b#if tags\x7d\x7d".data t.data = none)
    (htg : splitAtSub "\x7b\x7btags\x7d\x7d".data t.data = none) :
    substituteTags a (substituteExcerpt a t) = t := by
  have hex1 : substituteExcerpt a t = t := by
    cases hex : jsTruthy a.excerpt with
    | false => rw [substituteExcerpt_false a hex, replaceBlocks_no_open t _ _ _ ho1]
    | true =>
      rw [substituteExcerpt_true a hex, replaceBlocks_no_open t _ _ _ ho1,
          replaceAll_no_occur t _ _ he]
  rw [hex1]
  cases htag : tagsTruthy a.tags with
  | false => rw [substituteTags_false a htag, replaceBlocks_no_open t _ _ _ ho2]
  | true =>
    rw [substituteTags_true a htag, replaceBlocks_no_open t _ _ _ ho2,
        replaceAll_no_occur t _ _ htg]

/-!
## Shared lemmas about the orchestrator loops
-/

/-- The CLI loop produces exactly the per-provider results, in order. -/
theorem cliLoop_results (bs : String → ProviderBehavior) (names : List String) :
    (cliLoop bs names).1 = names.map (fun n => (cliRunProvider (bs n)).1) := by
  induction names with
  | nil => rfl
  | cons n rest ih => simp [cliLoop, ih]

/-- The plugin per-provider step reports the same `SyncResult` as the CLI
step, independent of the threaded state. -/
theorem pluginRunProvider_fst (appendMode : Bool) (template : String) (now : Nat)
    (bs : String → ProviderBehavior) (name : String) (st : PluginState) :
    (pluginRunProvider appendMode template now bs name st).1 = (cliRunProvider (bs name)).1 := by
  unfold pluginRunProvider cliRunProvider
  cases (bs name).auth with
  | thrown m => rfl
  | ok b =>
    cases b with
    | false => rfl
    | true =>
      cases (bs name).fetch with
      | thrown m => rfl
      | ok articles => rfl

/-- The plugin loop produces exactly the per-provider results, in order,
from any starting state. -/
theorem pluginLoop_results (appendMode : Bool) (template : String) (now : Nat)
    (bs : String → ProviderBehavior) (names : List String) :
    ∀ st : PluginState, (pluginLoop appendMode template now bs names st).1 =
      names.map (fun n => (cliRunProvider (bs n)).1) := by
  induction names with
  | nil => intro st; rfl
  | cons n rest ih =>
    intro st
    simp [pluginLoop, pluginRunProvider_fst, ih]

/-- A successful per-provider result carries no error message. -/
theorem cliRunProvider_success_no_error (b : ProviderBehavior) :
    (cliRunProvider b).1.success = true → (cliRunProvider b).1.error = none := by
  cases hb : b.auth with
  | thrown m => simp [cliRunProvider, hb]
  | ok authed =>
    cases authed with
    | false => simp [cliRunProvider, hb]
    | true =>
      cases hf : b.fetch with
      | thrown m => simp [cliRunProvider, hb, hf]
      | ok articles => simp [cliRunProvider, hb, hf]

/-- A thrown `resolveCredential` error is either the backend-unavailable
message or the pointer-not-found message of some reference; a plain value
never throws.  Neither message mentions the caller's map key. -/
theorem resolveCredential_error_shape (w : CredWorld) (v : CredValue) (e : String)
    (h : resolveCredential w v = .error e) :
    ∃ r, v = .ref r ∧
      (e = "Credential provider \x27" ++ credBackendName r.provider ++ "\x27 not available" ∨
       e = "Failed to resolve credential: " ++ r.reference) := by
  cases v with
  | plain s => simp [resolveCredential] at h
  | ref r =>
    refine ⟨r, rfl, ?_⟩
    simp only [resolveCredential] at h
    split at h
    · split at h
      · split at h
        · injection h with he
          exact Or.inr he.symm
        · simp at h
      · injection h with he
        exact Or.inr he.symm
    · injection h with he
      exact Or.inl he.symm

/-- A positive count of failed results is the same as the existence of an
unsuccessful result. -/
theorem filter_fail_length_pos (l : List SyncResult) :
    (l.filter (fun r => !r.success)).length > 0 ↔ ∃ r ∈ l, r.success = false := by
  rw [gt_iff_lt, List.length_pos]
  constructor
  · intro h
    rcases List.exists_mem_of_ne_nil _ h with ⟨r, hr⟩
    rw [List.mem_filter] at hr
    exact ⟨r, hr.1, by simpa using hr.2⟩
  · rintro ⟨r, hr, hs⟩
    intro hnil
    have := List.filter_eq_nil_iff.mp hnil r hr
    simp [hs] at this

/-!
## Claims
-/

/-- Claim C3 (code bug): the claim requires `BrowserProvider.fetchArticles`
to release the `page` and `browser` handles even when the extraction
routine throws, but the source has no try/finally: on a thrown extraction
the error propagates with both handles still set, and only the
normal-return path reaches `cleanup()`.  At the failing input (an
authenticated provider whose extraction throws) the final state still
holds both handles, which differs from the released state. -/
theorem c3_browser_leak_on_extract_throw :
    fetchArticles ⟨some 1, some 1⟩ .ok (.thrown "extraction failed") =
      .error ("extraction failed", ⟨some 1, some 1⟩) ∧
    fetchArticles ⟨some 1, some 1⟩ .ok (.ok []) = .ok ([], ⟨none, none⟩) ∧
    (⟨some 1, some 1⟩ : BrowserState) ≠ (⟨none, none⟩ : BrowserState) :=
  ⟨rfl, rfl, by decide⟩

/-- Claim C7: `parseReference` maps `op://Private/Wired/username` to the
1Password backend with the full string as pointer, `env://FOO` to the
environment backend with the prefix stripped, and any input not starting
with one of the three known prefixes — such as `plainvalue` — to the
literal string unchanged. -/
theorem c7_parse_reference_roundtrip :
    parseReference "op://Private/Wired/username" =
      .ref ⟨.onepassword, "op://Private/Wired/username"⟩ ∧
    parseReference "env://FOO" = .ref ⟨.env, "FOO"⟩ ∧
    parseReference "plainvalue" = .plain "plainvalue" ∧
    ∀ s : String, "op://".data.isPrefixOf s.data = false →
      "bw://".data.isPrefixOf s.data = false →
      "env://".data.isPrefixOf s.data = false →
      parseReference s = .plain s := by
  refine ⟨rfl, rfl, rfl, ?_⟩
  intro s h1 h2 h3
  simp [parseReference, h1, h2, h3]

/-- Claim C7 witness: the general no-known-prefix clause evaluated at the
concrete input `hello`. -/
theorem c7_parse_reference_roundtrip_witness : parseReference "hello" = .plain "hello" :=
  c7_parse_reference_roundtrip.2.2.2 "hello" rfl rfl rfl

/-- Claim C8: for every article record, `formatArticle` replaces
`\x7b\x7btitle\x7d\x7d` by the record's title, falling back to `Untitled`
when it is absent (empty), `\x7b\x7bauthor\x7d\x7d` by `Unknown` when the
author is absent, and the date placeholder by the empty string when the
publication date is absent; a conditional excerpt block is removed
entirely (delimiters and inner text) when the excerpt is absent, so
rendering `\x7b\x7b#if excerpt\x7d\x7dX\x7b\x7b/if\x7d\x7dY` yields
exactly `Y`, and when the excerpt is present only the delimiters are
removed and the inner placeholder is substituted with its value. -/
theorem c8_format_article_rendering (a : ReadLaterArticle) :
    (jsTruthy a.excerpt = false →
      formatArticle a "\x7b\x7b#if excerpt\x7d\x7dX\x7b\x7b/if\x7d\x7dY" = "Y") ∧
    (a.excerpt = some "hi" →
      formatArticle a "\x7b\x7b#if excerpt\x7d\x7dE:\x7b\x7bexcerpt\x7d\x7d\x7b\x7b/if\x7d\x7dY" =
        "E:hiY") ∧
    (a.title = "" → formatArticle a "\x7b\x7btitle\x7d\x7d" = "Untitled") ∧
    (a.title = "My Title" → formatArticle a "\x7b\x7btitle\x7d\x7d" = "My Title") ∧
    (a.author = none → formatArticle a "\x7b\x7bauthor\x7d\x7d" = "Unknown") ∧
    (a.publicationDate = none → formatArticle a "\x7b\x7bdate\x7d\x7d" = "") := by
  refine ⟨?_, ?_, ?_, ?_, ?_, ?_⟩
  · intro hex
    unfold formatArticle
    rw [substituteSimpleFields_no_placeholders a
          "\x7b\x7b#if excerpt\x7d\x7dX\x7b\x7b/if\x7d\x7dY" rfl rfl rfl rfl rfl,
        substituteExcerpt_false a hex,
        show replaceBlocks "\x7b\x7b#if excerpt\x7d\x7dX\x7b\x7b/if\x7d\x7dY"
          "\x7b\x7b#if excerpt\x7d\x7d" "\x7b\x7b/if\x7d\x7d" false = "Y" from rfl]
    cases htag : tagsTruthy a.tags with
    | false =>
      rw [substituteTags_false a htag,
          replaceBlocks_no_open "Y" "\x7b\x7b#if tags\x7d\x7d" "\x7b\x7b/if\x7d\x7d" false rfl]
    | true =>
      rw [substituteTags_true a htag,
          replaceBlocks_no_open "Y" "\x7b\x7b#if tags\x7d\x7d" "\x7b\x7b/if\x7d\x7d" true rfl,
          replaceAll_no_occur "Y" "\x7b\x7btags\x7d\x7d"
            (String.intercalate ", " (a.tags.getD [])) rfl]
  · intro hex
    have hex2 : jsTruthy a.excerpt = true := by rw [hex]; rfl
    unfold formatArticle
    rw [substituteSimpleFields_no_placeholders a
          "\x7b\x7b#if excerpt\x7d\x7dE:\x7b\x7bexcerpt\x7d\x7d\x7b\x7b/if\x7d\x7dY"
          rfl rfl rfl rfl rfl,
        substituteExcerpt_true a hex2, hex,
        show ((some "hi" : Option String).getD "") = "hi" from rfl,
        show replaceBlocks "\x7b\x7b#if excerpt\x7d\x7dE:\x7b\x7bexcerpt\x7d\x7d\x7b\x7b/if\x7d\x7dY"
          "\x7b\x7b#if excerpt\x7d\x7d" "\x7b\x7b/if\x7d\x7d" true = "E:\x7b\x7bexcerpt\x7d\x7dY"
          from rfl,
        show replaceAll "E:\x7b\x7bexcerpt\x7d\x7dY" "\x7b\x7bexcerpt\x7d\x7d" "hi" = "E:hiY"
          from rfl]
    cases htag : tagsTruthy a.tags with
    | false =>
      rw [substituteTags_false a htag,
          replaceBlocks_no_open "E:hiY" "\x7b\x7b#if tags\x7d\x7d" "\x7b\x7b/if\x7d\x7d" false rfl]
    | true =>
      rw [substituteTags_true a htag,
          replaceBlocks_no_open "E:hiY" "\x7b\x7b#if tags\x7d\x7d" "\x7b\x7b/if\x7d\x7d" true rfl,
          replaceAll_no_occur "E:hiY" "\x7b\x7btags\x7d\x7d"
            (String.intercalate ", " (a.tags.getD [])) rfl]
  · intro ht
    unfold formatArticle substituteSimpleFields
    rw [ht, show jsOrS "" "Untitled" = "Untitled" from rfl,
        replaceAll_self_title "Untitled",
        replaceAll_no_occur "Untitled" "\x7b\x7burl\x7d\x7d" a.url rfl,
        replaceAll_no_occur "Untitled" "\x7b\x7bsource\x7d\x7d" a.source rfl,
        replaceAll_no_occur "Untitled" "\x7b\x7bauthor\x7d\x7d" (jsOrOpt a.author "Unknown") rfl,
        replaceAll_no_occur "Untitled" "\x7b\x7bdate\x7d\x7d"
          (jsOrOpt a.publicationDate "") rfl,
        substituteExcerptTags_no_blocks a "Untitled" rfl rfl rfl rfl]
  · intro ht
    unfold formatArticle substituteSimpleFields
    rw [ht, show jsOrS "My Title" "Untitled" = "My Title" from rfl,
        replaceAll_self_title "My Title",
        replaceAll_no_occur "My Title" "\x7b\x7burl\x7d\x7d" a.url rfl,
        replaceAll_no_occur "My Title" "\x7b\x7bsource\x7d\x7d" a.source rfl,
        replaceAll_no_occur "My Title" "\x7b\x7bauthor\x7d\x7d" (jsOrOpt a.author "Unknown") rfl,
        replaceAll_no_occur "My Title" "\x7b\x7bdate\x7d\x7d"
          (jsOrOpt a.publicationDate "") rfl,
        substituteExcerptTags_no_blocks a "My Title" rfl rfl rfl rfl]
  · intro hau
    unfold formatArticle substituteSimpleFields
    rw [replaceAll_no_occur "\x7b\x7bauthor\x7d\x7d" "\x7b\x7btitle\x7d\x7d"
          (jsOrS a.title "Untitled") rfl,
        replaceAll_no_occur "\x7b\x7bauthor\x7d\x7d" "\x7b\x7burl\x7d\x7d" a.url rfl,
        replaceAll_no_occur "\x7b\x7bauthor\x7d\x7d" "\x7b\x7bsource\x7d\x7d" a.source rfl,
        hau, show jsOrOpt (none : Option String) "Unknown" = "Unknown" from rfl,
        replaceAll_self_author "Unknown",
        replaceAll_no_occur "Unknown" "\x7b\x7bdate\x7d\x7d"
          (jsOrOpt a.publicationDate "") rfl,
        substituteExcerptTags_no_blocks a "Unknown" rfl rfl rfl rfl]
  · intro hpd
    unfold formatArticle substituteSimpleFields
    rw [replaceAll_no_occur "\x7b\x7bdate\x7d\x7d" "\x7b\x7btitle\x7d\x7d"
          (jsOrS a.title "Untitled") rfl,
        replaceAll_no_occur "\x7b\x7bdate\x7d\x7d" "\x7b\x7burl\x7d\x7d" a.url rfl,
        replaceAll_no_occur "\x7b\x7bdate\x7d\x7d" "\x7b\x7bsource\x7d\x7d" a.source rfl,
        replaceAll_no_occur "\x7b\x7bdate\x7d\x7d" "\x7b\x7bauthor\x7d\x7d"
          (jsOrOpt a.author "Unknown") rfl,
        hpd, show jsOrOpt (none : Option String) "" = "" from rfl,
        replaceAll_self_date "",
        substituteExcerptTags_no_blocks a "" rfl rfl rfl rfl]

/-- Claim C8 witness: the excerpt-absent and excerpt-present clauses
evaluated at concrete records. -/
theorem c8_format_article_rendering_witness :
    formatArticle ⟨"t", "u", none, none, none, "s", 0, none⟩
        "\x7b\x7b#if excerpt\x7d\x7dX\x7b\x7b/if\x7d\x7dY" = "Y" ∧
    formatArticle ⟨"t", "u", none, none, some "hi", "s", 0, none⟩
        "\x7b\x7b#if excerpt\x7d\x7dE:\x7b\x7bexcerpt\x7d\x7d\x7b\x7b/if\x7d\x7dY" = "E:hiY" :=
  ⟨(c8_format_article_rendering ⟨"t", "u", none, none, none, "s", 0, none⟩).1 rfl,
   (c8_format_article_rendering ⟨"t", "u", none, none, some "hi", "s", 0, none⟩).2.1 rfl⟩

/-- Claim C9: for both persistence back-ends (the vault manager's
`writeFile`/`appendFile` and the CLI's direct-file `saveArticles` write),
writing `A` and then appending `B` yields `A\n\nB`, appending to an
absent target creates it with just the new content, and replacing
afterwards with `C` yields exactly `C`. -/
theorem c9_append_replace_semantics (prior : Option String) :
    appendFile (some (writeFile prior "A")) "B" = "A\n\nB" ∧
    writeFile (some (appendFile (some (writeFile prior "A")) "B")) "C" = "C" ∧
    appendFile none "B" = "B" ∧
    saveArticlesWrite (some (saveArticlesWrite prior false "A")) true "B" = "A\n\nB" ∧
    saveArticlesWrite
      (some (saveArticlesWrite (some (saveArticlesWrite prior false "A")) true "B"))
      false "C" = "C" ∧
    saveArticlesWrite none true "B" = "B" := by
  cases prior <;> exact ⟨rfl, rfl, rfl, rfl, rfl, rfl⟩

/-- Claim C10: when a run fetches zero articles in total, the output
target is left untouched — in either mode, including replace mode — and
no version-control commit or push action is attempted; likewise the
plugin's `saveArticles` returns without modifying the note. -/
theorem c10_zero_articles_no_write_no_git (template : String)
    (appendMode useVault gitSync isGitVault commitOk appendMode2 : Bool)
    (prior : Option String) :
    cliPersistPhase [] template appendMode useVault gitSync isGitVault commitOk prior =
      (prior, []) ∧
    pluginSaveArticles appendMode2 template [] prior = prior :=
  ⟨rfl, rfl⟩

/-- Claim C1 counterexample: in the headless CLI the credential-resolution
loop runs before the provider loop and has no try/catch, so a resolution
failure (here: environment variable `MISSING` not set, with both
subprocess backends unavailable) is not recorded as that provider's
failed `SyncResult` — it aborts the whole run as a fatal error and no
`SyncResult` at all is produced. -/
theorem c1_counterexample_resolution_failure_is_fatal :
    cliMain ⟨false, false, fun _ => none, fun _ => none, fun _ => none⟩
      [("wired", ⟨true, [("username", "env://MISSING")], none⟩)]
      (fun _ => ⟨"Wired", .ok true, .ok []⟩) =
      .fatal "Failed to resolve credential: MISSING" ∧
    cliResults
      (cliMain ⟨false, false, fun _ => none, fun _ => none, fun _ => none⟩
        [("wired", ⟨true, [("username", "env://MISSING")], none⟩)]
        (fun _ => ⟨"Wired", .ok true, .ok []⟩)) = [] :=
  ⟨rfl, rfl⟩

/-- Claim C1 (amended): when credential resolution fails for any enabled
provider, the CLI run aborts as a whole with that resolution error before
any provider is attempted, and no `SyncResult` is recorded for any
provider — the failure is not isolated to the affected provider. -/
theorem c1_amended_resolution_failure_aborts (w : CredWorld)
    (providers : List (String × ProviderConfig)) (bs : String → ProviderBehavior)
    (m : String) (h : resolvePhase w providers = .error m) :
    cliMain w providers bs = .fatal m ∧
    cliResults (cliMain w providers bs) = [] := by
  have h1 : cliMain w providers bs = .fatal m := by
    unfold cliMain
    rw [h]
  exact ⟨h1, by rw [h1]; rfl⟩

/-- Claim C1 amended witness: the amended theorem applied at a concrete
run whose only provider points at an unset environment variable. -/
theorem c1_amended_resolution_failure_aborts_witness :
    cliMain ⟨false, false, fun _ => none, fun _ => none, fun _ => none⟩
      [("guardian", ⟨true, [("password", "env://NOPE")], none⟩)]
      (fun _ => ⟨"G", .ok true, .ok []⟩) =
      .fatal "Failed to resolve credential: NOPE" :=
  (c1_amended_resolution_failure_aborts
    ⟨false, false, fun _ => none, fun _ => none, fun _ => none⟩
    [("guardian", ⟨true, [("password", "env://NOPE")], none⟩)]
    (fun _ => ⟨"G", .ok true, .ok []⟩)
    "Failed to resolve credential: NOPE" rfl).1

/-- Claim C2: both orchestrator loops produce exactly one `SyncResult`
per enabled provider, in catalog registration order (the enabled set is
the registration-ordered filter computed by `getEnabledProviders`), and
an exception thrown by a provider during authentication or fetching is
converted at the per-provider boundary into a failed `SyncResult`
carrying the exception's message without interrupting the loop. -/
theorem c2_one_result_per_provider (bs : String → ProviderBehavior)
    (cfg : List (String × ProviderConfig)) (appendMode : Bool) (template : String)
    (now : Nat) (st : PluginState) :
    (cliLoop bs (getEnabledProviders cfg)).1 =
      (getEnabledProviders cfg).map (fun n => (cliRunProvider (bs n)).1) ∧
    (pluginLoop appendMode template now bs (getEnabledProviders cfg) st).1 =
      (getEnabledProviders cfg).map (fun n => (cliRunProvider (bs n)).1) ∧
    (∀ n m, (bs n).auth = .thrown m →
      (cliRunProvider (bs n)).1 = ⟨(bs n).displayName, false, 0, some m⟩) ∧
    (∀ n m, (bs n).auth = .ok true → (bs n).fetch = .thrown m →
      (cliRunProvider (bs n)).1 = ⟨(bs n).displayName, false, 0, some m⟩) := by
  refine ⟨cliLoop_results bs _, pluginLoop_results appendMode template now bs _ st, ?_, ?_⟩
  · intro n m h
    unfold cliRunProvider
    rw [h]
  · intro n m h1 h2
    unfold cliRunProvider
    rw [h1, h2]

/-- Claim C2 witness: the thrown-authentication clause applied to a
concrete provider set whose provider throws `boom`. -/
theorem c2_one_result_per_provider_witness :
    (cliRunProvider ((fun _ => (⟨"W", .thrown "boom", .ok []⟩ : ProviderBehavior)) "wired")).1 =
      ⟨"W", false, 0, some "boom"⟩ :=
  (c2_one_result_per_provider (fun _ => ⟨"W", .thrown "boom", .ok []⟩) [] true "" 0
    ⟨none, []⟩).2.2.1 "wired" "boom" rfl

/-- Claim C4 counterexample: with every provider disabled the CLI does
not short-circuit benignly — it prints `Error: No providers enabled` and
exits with code 1, although no `SyncResult` has `success = false` (none
exists at all), contradicting both halves of the claim for the CLI. -/
theorem c4_counterexample_empty_set_exits_nonzero :
    cliMain ⟨false, false, fun _ => none, fun _ => none, fun _ => none⟩
      [("wired", ⟨false, [], none⟩)] (fun _ => ⟨"Wired", .ok true, .ok []⟩) =
      .fatal "No providers enabled" ∧
    cliExitCode
      (cliMain ⟨false, false, fun _ => none, fun _ => none, fun _ => none⟩
        [("wired", ⟨false, [], none⟩)] (fun _ => ⟨"Wired", .ok true, .ok []⟩)) = 1 ∧
    cliResults
      (cliMain ⟨false, false, fun _ => none, fun _ => none, fun _ => none⟩
        [("wired", ⟨false, [], none⟩)] (fun _ => ⟨"Wired", .ok true, .ok []⟩)) = [] :=
  ⟨rfl, rfl, rfl⟩

/-- Claim C4 (amended): the plugin orchestrator short-circuits an empty
enabled set with an empty result sequence and no error, but the headless
CLI treats an empty enabled set as an error (`process.exit(1)`); when the
CLI does run its provider loop, it exits non-zero exactly when some
provider's `SyncResult.success` is false. -/
theorem c4_amended_empty_set_and_exit_code (w : CredWorld)
    (cfg : List (String × ProviderConfig)) (bs : String → ProviderBehavior)
    (appendMode : Bool) (template : String) (now : Nat) (st : PluginState) :
    (getEnabledProviders st.providers = [] →
      pluginSyncAll appendMode template now bs st = ([], st)) ∧
    (∀ cfg2, resolvePhase w cfg = .ok cfg2 → getEnabledProviders cfg2 = [] →
      cliMain w cfg bs = .fatal "No providers enabled") ∧
    (∀ results pa ec, cliMain w cfg bs = .done results pa ec →
      (ec ≠ 0 ↔ ∃ r ∈ results, r.success = false)) := by
  refine ⟨?_, ?_, ?_⟩
  · intro h
    unfold pluginSyncAll
    rw [h]
    rfl
  · intro cfg2 h1 h2
    unfold cliMain
    split
    next m heq => rw [h1] at heq; cases heq
    next p2 heq =>
      rw [h1] at heq
      injection heq with hp
      subst hp
      rw [h2]
      rfl
  · intro results pa ec h
    unfold cliMain at h
    split at h
    next m heq => cases h
    next p2 heq =>
      split at h
      next he => cases h
      next he =>
        injection h with h1 h2 h3
        subst h1
        subst h3
        by_cases hc : ((cliLoop bs (getEnabledProviders p2)).1.filter
            (fun r => !r.success)).length > 0
        · rw [if_pos hc]
          exact iff_of_true one_ne_zero ((filter_fail_length_pos _).mp hc)
        · rw [if_neg hc]
          constructor
          · intro hz; exact absurd rfl hz
          · intro hex; exact absurd ((filter_fail_length_pos _).mpr hex) hc

/-- Claim C4 amended witness: the plugin short-circuit clause applied at
a state with no configured providers. -/
theorem c4_amended_empty_set_and_exit_code_witness :
    pluginSyncAll true "" 0 (fun _ => ⟨"W", .ok true, .ok []⟩)
      (⟨none, []⟩ : PluginState) = ([], ⟨none, []⟩) :=
  (c4_amended_empty_set_and_exit_code
    ⟨false, false, fun _ => none, fun _ => none, fun _ => none⟩ []
    (fun _ => ⟨"W", .ok true, .ok []⟩) true "" 0 ⟨none, []⟩).1 rfl

/-- Claim C5 counterexample: a headless CLI run with one enabled provider
that authenticates and fetches two articles produces a `SyncResult` with
`success = true`, yet the provider's `lastSync` in the settings after the
run is still `none` — the CLI never updates `lastSync` at all, so
`success = true` does not imply a `lastSync` update for CLI runs. -/
theorem c5_counterexample_cli_never_updates_lastSync :
    cliMain ⟨false, false, fun _ => none, fun _ => none, fun _ => none⟩
      [("wired", ⟨true, [("username", "u"), ("password", "p")], none⟩)]
      (fun _ => ⟨"Wired", .ok true,
        .ok [⟨"T", "hx", none, none, none, "Wired", 0, none⟩,
             ⟨"T2", "hy", none, none, none, "Wired", 0, none⟩]⟩) =
      .done [⟨"Wired", true, 2, none⟩]
        [("wired", ⟨true, [("username", "u"), ("password", "p")], none⟩)] 0 :=
  rfl

/-- Claim C5 (amended): in both orchestrator loops every `SyncResult`
with `success = true` carries no error message; in the plugin loop a
provider's step updates that provider's `lastSync` to the current time
exactly when its result is successful and leaves the settings untouched
otherwise.  The headless CLI, however, never updates `lastSync` (see the
counterexample). -/
theorem c5_amended_success_invariants (appendMode : Bool) (template : String)
    (now : Nat) (bs : String → ProviderBehavior) (names : List String)
    (st : PluginState) :
    (∀ r ∈ (pluginLoop appendMode template now bs names st).1,
      r.success = true → r.error = none) ∧
    (∀ r ∈ (cliLoop bs names).1, r.success = true → r.error = none) ∧
    (∀ name st2,
      ((pluginRunProvider appendMode template now bs name st2).1.success = true →
        (pluginRunProvider appendMode template now bs name st2).2.providers =
          updateLastSync st2.providers name now) ∧
      ((pluginRunProvider appendMode template now bs name st2).1.success = false →
        (pluginRunProvider appendMode template now bs name st2).2.providers =
          st2.providers)) := by
  refine ⟨?_, ?_, ?_⟩
  · intro r hr
    rw [pluginLoop_results] at hr
    rcases List.mem_map.mp hr with ⟨n, _, rfl⟩
    exact cliRunProvider_success_no_error (bs n)
  · intro r hr
    rw [cliLoop_results] at hr
    rcases List.mem_map.mp hr with ⟨n, _, rfl⟩
    exact cliRunProvider_success_no_error (bs n)
  · intro name st2
    cases hb : (bs name).auth with
    | thrown m => constructor <;> simp [pluginRunProvider, hb]
    | ok authed =>
      cases authed with
      | false => constructor <;> simp [pluginRunProvider, hb]
      | true =>
        cases hf : (bs name).fetch with
        | thrown m => constructor <;> simp [pluginRunProvider, hb, hf]
        | ok articles => constructor <;> simp [pluginRunProvider, hb, hf]

/-- Claim C5 amended witness: the plugin per-provider step at a concrete
successful provider updates its `lastSync`. -/
theorem c5_amended_success_invariants_witness :
    (pluginRunProvider true "T" 7 (fun _ => ⟨"W", .ok true, .ok []⟩) "wired"
        ⟨none, [("wired", ⟨true, [], none⟩)]⟩).2.providers =
      updateLastSync [("wired", ⟨true, [], none⟩)] "wired" 7 :=
  ((c5_amended_success_invariants true "T" 7 (fun _ => ⟨"W", .ok true, .ok []⟩) []
    ⟨none, []⟩).2.2 "wired" ⟨none, [("wired", ⟨true, [], none⟩)]⟩).1 rfl

/-- Claim C6 counterexample: resolving the single-entry credential map
`username ↦ env://NOPE` (environment variable unset) fails the overall
call, but the error message names only the failing reference, not the
entry's key: `username` does not occur in it. -/
theorem c6_counterexample_error_omits_key :
    resolveCredentials ⟨false, false, fun _ => none, fun _ => none, fun _ => none⟩
      [("username", .ref ⟨.env, "NOPE"⟩)] =
      .error "Failed to resolve credential: NOPE" ∧
    containsSub "Failed to resolve credential: NOPE" "username" = false :=
  ⟨rfl, rfl⟩

/-- Claim C6 (amended): `resolveCredentials` does not silently skip a
failing entry — if it returns a resolved map, every truthy entry resolved
successfully, and when it fails the error originates from some reference
entry of the map and is either the backend-unavailable message naming the
backend or the pointer-not-found message naming the reference; neither
message names the entry's key. -/
theorem c6_amended_failure_propagates (w : CredWorld) :
    (∀ creds : List (String × CredValue), ∀ resolved,
      resolveCredentials w creds = .ok resolved →
      ∀ kv ∈ creds, credValueTruthy kv.2 = true →
        ∃ s, resolveCredential w kv.2 = .ok s) ∧
    (∀ creds : List (String × CredValue), ∀ e,
      resolveCredentials w creds = .error e →
      ∃ kv ∈ creds, ∃ r, kv.2 = CredValue.ref r ∧
        (e = "Credential provider \x27" ++ credBackendName r.provider ++
          "\x27 not available" ∨
         e = "Failed to resolve credential: " ++ r.reference)) := by
  constructor
  · intro creds
    induction creds with
    | nil => intro resolved _ kv hkv; cases hkv
    | cons hd tl ih =>
      intro resolved hres kv hkv htr
      obtain ⟨k, v⟩ := hd
      unfold resolveCredentials at hres
      by_cases hv : credValueTruthy v = true
      · rw [if_pos hv] at hres
        cases hc : resolveCredential w v with
        | error e0 => rw [hc] at hres; cases hres
        | ok s0 =>
          rw [hc] at hres
          cases hrest : resolveCredentials w tl with
          | error e0 => rw [hrest] at hres; cases hres
          | ok m =>
            cases hkv with
            | head => exact ⟨s0, hc⟩
            | tail _ hmem => exact ih m hrest kv hmem htr
      · rw [if_neg hv] at hres
        cases hkv with
        | head => exact absurd htr hv
        | tail _ hmem => exact ih resolved hres kv hmem htr
  · intro creds
    induction creds with
    | nil => intro e h; cases h
    | cons hd tl ih =>
      intro e hres
      obtain ⟨k, v⟩ := hd
      unfold resolveCredentials at hres
      by_cases hv : credValueTruthy v = true
      · rw [if_pos hv] at hres
        cases hc : resolveCredential w v with
        | error e0 =>
          rw [hc] at hres
          injection hres with he
          subst he
          obtain ⟨r, hvr, hshape⟩ := resolveCredential_error_shape w v e0 hc
          exact ⟨(k, v), List.mem_cons_self _ _, r, hvr, hshape⟩
        | ok s0 =>
          rw [hc] at hres
          cases hrest : resolveCredentials w tl with
          | error e0 =>
            rw [hrest] at hres
            injection hres with he
            subst he
            obtain ⟨kv, hmem, hr⟩ := ih e0 hrest
            exact ⟨kv, List.mem_cons_of_mem _ hmem, hr⟩
          | ok m => rw [hrest] at hres; cases hres
      · rw [if_neg hv] at hres
        obtain ⟨kv, hmem, hr⟩ := ih e hres
        exact ⟨kv, List.mem_cons_of_mem _ hmem, hr⟩

/-- Claim C6 amended witness: the failure clause applied at a concrete
one-entry map whose environment pointer is unset. -/
theorem c6_amended_failure_propagates_witness :
    ∃ kv ∈ [("username", CredValue.ref ⟨.env, "NOPE"⟩)], ∃ r,
      kv.2 = CredValue.ref r ∧
      ("Failed to resolve credential: NOPE" =
        "Credential provider \x27" ++ credBackendName r.provider ++
          "\x27 not available" ∨
       "Failed to resolve credential: NOPE" =
        "Failed to resolve credential: " ++ r.reference) :=
  (c6_amended_failure_propagates
    ⟨false, false, fun _ => none, fun _ => none, fun _ => none⟩).2
    [("username", .ref ⟨.env, "NOPE"⟩)] "Failed to resolve credential: NOPE" rfl

end ReadLater
